import Mathlib

/-!
Shallow embedding of the `is-agentic-tui` detection engine
(`src/index.ts` together with `getAncestorProcessNames` from
`src/process.ts`).

The process environment is modelled as a finite association list from
variable names to values (`process.env` lookups become `List.lookup`),
and the ancestor-process oracle result is an explicit list of process
names passed to the detectors that consume it.  Every detector is a
pure function of those two inputs, exactly mirroring its TypeScript
body; the module-level result cache is threaded as explicit state.
-/

namespace IsAgenticTui

/-- The closed enumeration of supported tool identifiers
(`export type AgenticTui`). -/
inductive AgenticTui where
  | claudeCode
  | cursorAgent
  | geminiCli
  | aider
  | codex
  | cline
  | kiroCli
  | opencode
  | githubCopilotCli
  | unknown
deriving DecidableEq, Repr

/-- Confidence level of a detection (`"high" | "medium"`). -/
inductive Confidence where
  | high
  | medium
deriving DecidableEq, Repr

/-- `interface DetectionResult`: detected tool (or null), confidence,
and the list of evidentiary signal strings. -/
structure DetectionResult where
  tool : Option AgenticTui
  confidence : Confidence
  signals : List String
deriving DecidableEq, Repr

/-- The process environment, modelled as an association list
(`process.env["K"]` becomes `Env.lookup` on the key `K`). -/
abbrev Env := List (String × String)

/-- Is `pat` a prefix of `l` (character lists)? -/
def charsStartWith : List Char → List Char → Bool
  | [], _ => true
  | _ :: _, [] => false
  | p :: ps, c :: cs => p == c && charsStartWith ps cs

/-- Does `l` contain `pat` as a contiguous sublist? -/
def charsContain (pat : List Char) : List Char → Bool
  | [] => charsStartWith pat []
  | c :: cs => charsStartWith pat (c :: cs) || charsContain pat cs

/-- JavaScript `s.includes(pat)` on strings. -/
def strContains (s pat : String) : Bool :=
  charsContain pat.toList s.toList

/-- JavaScript `s.endsWith(pat)`. -/
def strEndsWith (s pat : String) : Bool :=
  charsStartWith pat.toList.reverse s.toList.reverse

/-- The secondary signal accumulation of `detectClaudeCode`:
`CLAUDE_CODE_ENTRYPOINT` presence and `CLAUDE_PATH` containing
`"claude-code"` push their signal strings, in that order. -/
def claudeSecondarySignals (env : Env) : List String :=
  (match env.lookup "CLAUDE_CODE_ENTRYPOINT" with
   | some v => ["CLAUDE_CODE_ENTRYPOINT=" ++ v]
   | none => []) ++
  (match env.lookup "CLAUDE_PATH" with
   | some v =>
     if strContains v "claude-code" then
       ["CLAUDE_PATH contains \"claude-code\""]
     else []
   | none => [])

/-- `detectClaudeCode` (src/index.ts): `CLAUDECODE === "1"` is the
high-confidence primary signal; otherwise any accumulated secondary
signals yield medium confidence. -/
def detectClaudeCode (env : Env) : Option DetectionResult :=
  if env.lookup "CLAUDECODE" = some "1" then
    some { tool := some .claudeCode, confidence := .high,
           signals := ["CLAUDECODE=1"] }
  else
    if (claudeSecondarySignals env).length > 0 then
      some { tool := some .claudeCode, confidence := .medium,
             signals := claudeSecondarySignals env }
    else
      none

/-- `detectCursorAgent` (src/index.ts): `CURSOR_AGENT === "1"` is high;
`CURSOR_INVOKED_AS === "cursor-agent"` is medium. -/
def detectCursorAgent (env : Env) : Option DetectionResult :=
  if env.lookup "CURSOR_AGENT" = some "1" then
    some { tool := some .cursorAgent, confidence := .high,
           signals := ["CURSOR_AGENT=1"] }
  else if env.lookup "CURSOR_INVOKED_AS" = some "cursor-agent" then
    some { tool := some .cursorAgent, confidence := .medium,
           signals := ["CURSOR_INVOKED_AS=cursor-agent"] }
  else
    none

/-- `detectGeminiCli` (src/index.ts): `GEMINI_CLI === "1"` is high. -/
def detectGeminiCli (env : Env) : Option DetectionResult :=
  if env.lookup "GEMINI_CLI" = some "1" then
    some { tool := some .geminiCli, confidence := .high,
           signals := ["GEMINI_CLI=1"] }
  else
    none

/-- `detectAider` (src/index.ts): `AIDER === "1"` (future signal) or
`OR_APP_NAME === "Aider"` is high; in the latter case
`OR_SITE_URL === "https://aider.chat"` is appended as corroboration. -/
def detectAider (env : Env) : Option DetectionResult :=
  if env.lookup "AIDER" = some "1" then
    some { tool := some .aider, confidence := .high,
           signals := ["AIDER=1"] }
  else if env.lookup "OR_APP_NAME" = some "Aider" then
    let signals :=
      ["OR_APP_NAME=Aider"] ++
      (if env.lookup "OR_SITE_URL" = some "https://aider.chat" then
         ["OR_SITE_URL=https://aider.chat"]
       else [])
    some { tool := some .aider, confidence := .high, signals := signals }
  else
    none

/-- `detectCodex` (src/index.ts): `CODEX_SANDBOX` present (any value)
is high; `CODEX_THREAD_ID` present is medium. -/
def detectCodex (env : Env) : Option DetectionResult :=
  match env.lookup "CODEX_SANDBOX" with
  | some v =>
    some { tool := some .codex, confidence := .high,
           signals := ["CODEX_SANDBOX=" ++ v] }
  | none =>
    match env.lookup "CODEX_THREAD_ID" with
    | some v =>
      some { tool := some .codex, confidence := .medium,
             signals := ["CODEX_THREAD_ID=" ++ v] }
    | none => none

/-- `detectCline` (src/index.ts): `CLINE_ACTIVE === "true"` is high. -/
def detectCline (env : Env) : Option DetectionResult :=
  if env.lookup "CLINE_ACTIVE" = some "true" then
    some { tool := some .cline, confidence := .high,
           signals := ["CLINE_ACTIVE=true"] }
  else
    none

/-- The `ancestors.find(...)` predicate of `detectKiroCli`: an entry
equal to, or ending in a `/`-delimited suffix of, `kiro-cli` or `q`. -/
def kiroAncestorMatch (name : String) : Bool :=
  name == "kiro-cli" || strEndsWith name "/kiro-cli" ||
    name == "q" || strEndsWith name "/q"

/-- `detectKiroCli` (src/index.ts): when `Q_TERM` is set, a matching
`kiro-cli`/`q` ancestor escalates to high confidence, otherwise the
marker alone yields medium; with `Q_TERM` unset, `QTERM_SESSION_ID`
presence yields medium. -/
def detectKiroCli (env : Env) (ancestors : List String) :
    Option DetectionResult :=
  match env.lookup "Q_TERM" with
  | some qTerm =>
    match ancestors.find? kiroAncestorMatch with
    | some kiroAncestor =>
      some { tool := some .kiroCli, confidence := .high,
             signals := ["Q_TERM=" ++ qTerm,
                         "ancestor process: " ++ kiroAncestor] }
    | none =>
      some { tool := some .kiroCli, confidence := .medium,
             signals := ["Q_TERM=" ++ qTerm] }
  | none =>
    match env.lookup "QTERM_SESSION_ID" with
    | some sessionId =>
      some { tool := some .kiroCli, confidence := .medium,
             signals := ["QTERM_SESSION_ID=" ++ sessionId] }
    | none => none

/-- `detectOpencode` (src/index.ts): `OPENCODE === "1"` is high. -/
def detectOpencode (env : Env) : Option DetectionResult :=
  if env.lookup "OPENCODE" = some "1" then
    some { tool := some .opencode, confidence := .high,
           signals := ["OPENCODE=1"] }
  else
    none

/-- The `ancestors.find(...)` predicate of `detectGitHubCopilotCli`: an
entry equal to `copilot` or ending in `/copilot`. -/
def copilotAncestorMatch (name : String) : Bool :=
  name == "copilot" || strEndsWith name "/copilot"

/-- `detectGitHubCopilotCli` (src/index.ts, current revision): the
ancestor walk is gated on `Q_TERM` being set; with `Q_TERM` set and a
`copilot` ancestor found, returns high confidence with both signals;
otherwise returns null. -/
def detectGitHubCopilotCli (env : Env) (ancestors : List String) :
    Option DetectionResult :=
  match env.lookup "Q_TERM" with
  | none => none
  | some qTerm =>
    match ancestors.find? copilotAncestorMatch with
    | some copilotAncestor =>
      some { tool := some .githubCopilotCli, confidence := .high,
             signals := ["ancestor process: " ++ copilotAncestor,
                         "Q_TERM=" ++ qTerm] }
    | none => none

/-- `detectGitHubCopilotCli` from the previous revision of src/index.ts
(the version that always walks the ancestor chain, with no `Q_TERM`
gate): a `copilot` ancestor alone is medium confidence, escalated to
high when `Q_TERM` is also set (its value then appended as a signal). -/
def detectGitHubCopilotCliAlways (env : Env) (ancestors : List String) :
    Option DetectionResult :=
  match ancestors.find? copilotAncestorMatch with
  | some copilotAncestor =>
    let base := ["ancestor process: " ++ copilotAncestor]
    match env.lookup "Q_TERM" with
    | some qTerm =>
      some { tool := some .githubCopilotCli, confidence := .high,
             signals := base ++ ["Q_TERM=" ++ qTerm] }
    | none =>
      some { tool := some .githubCopilotCli, confidence := .medium,
             signals := base }
  | none => none

/-- Identity of a detector function, for the registry and its
ordering guard (`detectors.indexOf` compares function identities). -/
inductive DetectorId where
  | claudeCode
  | cursorAgent
  | geminiCli
  | aider
  | codex
  | cline
  | githubCopilotCli
  | kiroCli
  | opencode
deriving DecidableEq, Repr

/-- Dispatch a detector identity to its function.  Detectors that do
not consume the Ancestor Oracle ignore the ancestor list. -/
def runDetector (d : DetectorId) (env : Env) (ancestors : List String) :
    Option DetectionResult :=
  match d with
  | .claudeCode => detectClaudeCode env
  | .cursorAgent => detectCursorAgent env
  | .geminiCli => detectGeminiCli env
  | .aider => detectAider env
  | .codex => detectCodex env
  | .cline => detectCline env
  | .githubCopilotCli => detectGitHubCopilotCli env ancestors
  | .kiroCli => detectKiroCli env ancestors
  | .opencode => detectOpencode env

/-- The `detectors` array of src/index.ts, in registration order.
Copilot CLI is deliberately registered before Kiro CLI. -/
def registry : List DetectorId :=
  [.claudeCode, .cursorAgent, .geminiCli, .aider, .codex, .cline,
   .githubCopilotCli, .kiroCli, .opencode]

/-- JavaScript `Array.prototype.indexOf`, with `none` for `-1`. -/
def indexOfId (d : DetectorId) : List DetectorId → Option Nat
  | [] => none
  | a :: as => if a == d then some 0 else (indexOfId d as).map (· + 1)

/-- The module-initialization ordering guard of src/index.ts: computes
the indices of the Copilot and Kiro detectors and reports whether the
`throw new Error(...)` branch is taken (`copilotIdx !== -1 &&
kiroIdx !== -1 && copilotIdx >= kiroIdx`). -/
def registryGuardError (ds : List DetectorId) : Bool :=
  match indexOfId .githubCopilotCli ds, indexOfId .kiroCli ds with
  | some copilotIdx, some kiroIdx => decide (kiroIdx ≤ copilotIdx)
  | _, _ => false

/-- The per-detector outputs in registry order, for a fixed environment
and ancestor state (detectors are pure, so the two passes of
`whichAgenticTui` observe the same outputs). -/
def detectorResults (env : Env) (ancestors : List String) :
    List (Option DetectionResult) :=
  registry.map (fun d => runDetector d env ancestors)

/-- The body of the first pass: keep a detector output only when it is
a high-confidence result. -/
def highOf : Option DetectionResult → Option DetectionResult
  | some r => if r.confidence = .high then some r else none
  | none => none

/-- The two-pass resolution of `whichAgenticTui` on a fresh evaluation:
first high-confidence match in registry order, else first match of any
confidence, else null. -/
def whichAgenticTuiFresh (env : Env) (ancestors : List String) :
    Option DetectionResult :=
  match (detectorResults env ancestors).findSome? highOf with
  | some r => some r
  | none => (detectorResults env ancestors).findSome? id

/-- `interface DetectionOptions` (`options?.force`, with an absent
options object read as `force = false`). -/
structure DetectionOptions where
  force : Bool

/-- The module-level `cachedResult` slot: `none` is the TypeScript
`undefined` (not yet computed); `some none` is a cached null. -/
abbrev CacheState := Option (Option DetectionResult)

/-- `clearCache()`: resets the slot to `undefined`. -/
def clearCache : CacheState := none

/-- `whichAgenticTui` (src/index.ts, current revision) with the
module-level cache threaded as explicit state: returns the cached
value when present and `force` is not set; otherwise performs a fresh
two-pass resolution and stores it (a null result included). -/
def whichAgenticTui (options : DetectionOptions) (cache : CacheState)
    (env : Env) (ancestors : List String) :
    Option DetectionResult × CacheState :=
  match cache, options.force with
  | some c, false => (c, some c)
  | _, _ =>
    let result := whichAgenticTuiFresh env ancestors
    (result, some result)

/-- `isAgenticTui`: true iff `whichAgenticTui` returns non-null. -/
def isAgenticTui (options : DetectionOptions) (cache : CacheState)
    (env : Env) (ancestors : List String) : Bool × CacheState :=
  let r := whichAgenticTui options cache env ancestors
  (r.1.isSome, r.2)

/-- `isSpecificAgenticTui`: true iff the resolved result's tool equals
the caller-supplied identifier (`result?.tool === tool`). -/
def isSpecificAgenticTui (tool : AgenticTui) (options : DetectionOptions)
    (cache : CacheState) (env : Env) (ancestors : List String) :
    Bool × CacheState :=
  let r := whichAgenticTui options cache env ancestors
  ((match r.1 with
    | some x => x.tool == some tool
    | none => false), r.2)

/-- The loop body of `getAncestorProcessNames` (src/process.ts), with
the OS `ps` lookup abstracted as an oracle `lookup : pid → (ppid, comm)`
(`none` covers a thrown/timed-out subprocess, empty output, a regex
mismatch, or missing capture groups).  Returns the collected names and
the number of oracle invocations.  The loop counter becomes fuel. -/
def ancestorWalk (lookup : Nat → Option (Nat × String)) :
    Nat → Nat → List String × Nat
  | 0, _ => ([], 0)
  | fuel + 1, pid =>
    if pid ≤ 1 then ([], 0)
    else
      match lookup pid with
      | none => ([], 1)
      | some (parentPid, comm) =>
        let rest := ancestorWalk lookup fuel parentPid
        (comm :: rest.1, rest.2 + 1)

/-- `getAncestorProcessNames(maxDepth = 10)` (src/process.ts): empty on
win32, otherwise walks up from `process.ppid` for at most `maxDepth`
hops, stopping at pid ≤ 1 or on any lookup failure. -/
def getAncestorProcessNames (platform : String) (ppid : Nat)
    (lookup : Nat → Option (Nat × String)) (maxDepth : Nat) :
    List String :=
  if platform = "win32" then []
  else (ancestorWalk lookup maxDepth ppid).1

/-- Number of OS lookups performed by `getAncestorProcessNames` on the
same inputs (instrumentation of the same loop). -/
def getAncestorLookupCalls (platform : String) (ppid : Nat)
    (lookup : Nat → Option (Nat × String)) (maxDepth : Nat) : Nat :=
  if platform = "win32" then 0
  else (ancestorWalk lookup maxDepth ppid).2

/-- Dispatch for the registry variant in which the GitHub Copilot CLI
detector is the previous, always-walking revision; all other entries
are unchanged. -/
def runDetectorAlways (d : DetectorId) (env : Env)
    (ancestors : List String) : Option DetectionResult :=
  match d with
  | .githubCopilotCli => detectGitHubCopilotCliAlways env ancestors
  | _ => runDetector d env ancestors

/-- Detector outputs in registry order for the always-walk variant. -/
def detectorResultsAlways (env : Env) (ancestors : List String) :
    List (Option DetectionResult) :=
  registry.map (fun d => runDetectorAlways d env ancestors)

/-- Two-pass resolution over the always-walk variant of the registry. -/
def whichAgenticTuiFreshAlways (env : Env) (ancestors : List String) :
    Option DetectionResult :=
  match (detectorResultsAlways env ancestors).findSome? highOf with
  | some r => some r
  | none => (detectorResultsAlways env ancestors).findSome? id

/-- The tool identifier each detector reports when it matches. -/
def toolOfDetector : DetectorId → AgenticTui
  | .claudeCode => .claudeCode
  | .cursorAgent => .cursorAgent
  | .geminiCli => .geminiCli
  | .aider => .aider
  | .codex => .codex
  | .cline => .cline
  | .githubCopilotCli => .githubCopilotCli
  | .kiroCli => .kiroCli
  | .opencode => .opencode

/-- A process-lookup oracle that always fails (unsupported platform or
unreadable process table). -/
def noLookup : Nat → Option (Nat × String) := fun _ => none

/-- Modelled from the spec: "return the first result whose confidence
is high" — first-match scan of the detector outputs keeping only
high-confidence results (first registered wins on ties). -/
def specFirstHigh : List (Option DetectionResult) → Option DetectionResult
  | [] => none
  | none :: rest => specFirstHigh rest
  | some r :: rest =>
    if r.confidence = .high then some r else specFirstHigh rest

/-- Modelled from the spec: "return the first result of any
confidence" — first non-null detector output in registry order. -/
def specFirstAny : List (Option DetectionResult) → Option DetectionResult
  | [] => none
  | none :: rest => specFirstAny rest
  | some r :: _ => some r

/-- Modelled from the spec: the two-pass resolution policy — the first
high-confidence result, else the first result of any confidence, else
absent. -/
def specResolve (results : List (Option DetectionResult)) :
    Option DetectionResult :=
  match specFirstHigh results with
  | some r => some r
  | none => specFirstAny results

end IsAgenticTui

namespace IsAgenticTui

/-- The first pass of the resolution loop is the first-match scan. -/
theorem findSome?_highOf_eq (rs : List (Option DetectionResult)) :
    rs.findSome? highOf = specFirstHigh rs := by
  induction rs with
  | nil => rfl
  | cons a rest ih =>
    cases a with
    | none => simp [List.findSome?_cons, highOf, specFirstHigh, ih]
    | some r =>
      by_cases h : r.confidence = .high
      · simp [List.findSome?_cons, highOf, specFirstHigh, h]
      · simp [List.findSome?_cons, highOf, specFirstHigh, h, ih]

/-- The second pass of the resolution loop is the first-non-null scan. -/
theorem findSome?_id_eq (rs : List (Option DetectionResult)) :
    rs.findSome? id = specFirstAny rs := by
  induction rs with
  | nil => rfl
  | cons a rest ih =>
    cases a with
    | none => simp [List.findSome?_cons, specFirstAny, ih]
    | some r => simp [List.findSome?_cons, specFirstAny]

/-- Fresh resolution coincides with the spec-side two-pass policy. -/
theorem whichFresh_eq_specResolve (env : Env) (anc : List String) :
    whichAgenticTuiFresh env anc = specResolve (detectorResults env anc) := by
  unfold whichAgenticTuiFresh specResolve
  rw [findSome?_highOf_eq, findSome?_id_eq]

/-- A confidence that is not high is medium. -/
theorem confidence_eq_medium_of_ne_high (c : Confidence)
    (h : c ≠ .high) : c = .medium := by
  cases c with
  | high => exact absurd rfl h
  | medium => rfl

/-- If no detector produced a high-confidence result, the first result
of any confidence is medium. -/
theorem specFirstAny_confidence (rs : List (Option DetectionResult))
    (r : DetectionResult) (hh : specFirstHigh rs = none)
    (ha : specFirstAny rs = some r) : r.confidence = .medium := by
  induction rs with
  | nil => simp [specFirstAny] at ha
  | cons a rest ih =>
    cases a with
    | none =>
      simp [specFirstHigh] at hh
      simp [specFirstAny] at ha
      exact ih hh ha
    | some x =>
      by_cases h : x.confidence = .high
      · simp [specFirstHigh, h] at hh
      · have hx : x = r := by simpa [specFirstAny] using ha
        rw [hx] at h
        exact confidence_eq_medium_of_ne_high _ h

/-- If every detector output is null, resolution is null. -/
theorem specResolve_of_all_none (rs : List (Option DetectionResult))
    (h : ∀ a ∈ rs, a = none) : specResolve rs = none := by
  induction rs with
  | nil => rfl
  | cons a rest ih =>
    have ha := h a (by simp)
    subst ha
    have hr : ∀ a ∈ rest, a = none := fun a hm => h a (by simp [hm])
    simp [specResolve, specFirstHigh, specFirstAny] at ih ⊢
    exact ih hr

/-- If no element of the list satisfies the predicate, `find?` is none. -/
theorem find?_eq_none_of_all {p : String → Bool} {l : List String}
    (h : ∀ a ∈ l, p a = false) : l.find? p = none := by
  rw [List.find?_eq_none]
  intro x hx
  simp [h x hx]

/-- If some element satisfies the predicate, `find?` returns a
satisfying element of the list. -/
theorem exists_find?_of_mem {p : String → Bool} {l : List String}
    (h : ∃ a ∈ l, p a = true) :
    ∃ c, l.find? p = some c ∧ p c = true ∧ c ∈ l := by
  have hs : (l.find? p).isSome = true := List.find?_isSome.mpr h
  cases hc : l.find? p with
  | none => rw [hc] at hs; simp at hs
  | some c =>
    exact ⟨c, rfl, List.find?_some hc, List.mem_of_find?_eq_some hc⟩

/-- Inverting a guarded result constructor: a length-guarded branch
that matched yields the stated tool and a non-empty signal list. -/
theorem some_of_ite_length {t : AgenticTui} {c : Confidence}
    {S : List String} {r : DetectionResult}
    (h : (if S.length > 0 then
            some { tool := some t, confidence := c, signals := S }
          else none) = some r) :
    r.tool = some t ∧ r.signals ≠ [] := by
  split at h
  · cases h
    refine ⟨rfl, ?_⟩
    intro hnil
    simp_all
  · cases h

/-- Inversion for `detectClaudeCode`. -/
theorem detectClaudeCode_some_inv (env : Env) (r : DetectionResult)
    (h : detectClaudeCode env = some r) :
    r.tool = some .claudeCode ∧ r.signals ≠ [] := by
  by_cases h1 : env.lookup "CLAUDECODE" = some "1"
  · simp [detectClaudeCode, h1] at h
    subst h
    simp
  · rw [detectClaudeCode, if_neg h1] at h
    exact some_of_ite_length h

/-- Inversion for `detectCursorAgent`. -/
theorem detectCursorAgent_some_inv (env : Env) (r : DetectionResult)
    (h : detectCursorAgent env = some r) :
    r.tool = some .cursorAgent ∧ r.signals ≠ [] := by
  by_cases h1 : env.lookup "CURSOR_AGENT" = some "1"
  · simp [detectCursorAgent, h1] at h
    subst h
    simp
  · by_cases h2 : env.lookup "CURSOR_INVOKED_AS" = some "cursor-agent"
    · simp [detectCursorAgent, h1, h2] at h
      subst h
      simp
    · simp [detectCursorAgent, h1, h2] at h

/-- Inversion for `detectGeminiCli`. -/
theorem detectGeminiCli_some_inv (env : Env) (r : DetectionResult)
    (h : detectGeminiCli env = some r) :
    r.tool = some .geminiCli ∧ r.signals ≠ [] := by
  by_cases h1 : env.lookup "GEMINI_CLI" = some "1"
  · simp [detectGeminiCli, h1] at h
    subst h
    simp
  · simp [detectGeminiCli, h1] at h

/-- Inversion for `detectAider`. -/
theorem detectAider_some_inv (env : Env) (r : DetectionResult)
    (h : detectAider env = some r) :
    r.tool = some .aider ∧ r.signals ≠ [] := by
  by_cases h1 : env.lookup "AIDER" = some "1"
  · simp [detectAider, h1] at h
    subst h
    simp
  · by_cases h2 : env.lookup "OR_APP_NAME" = some "Aider"
    · simp [detectAider, h1, h2] at h
      subst h
      simp
    · simp [detectAider, h1, h2] at h

/-- Inversion for `detectCodex`. -/
theorem detectCodex_some_inv (env : Env) (r : DetectionResult)
    (h : detectCodex env = some r) :
    r.tool = some .codex ∧ r.signals ≠ [] := by
  cases h1 : env.lookup "CODEX_SANDBOX" with
  | some v =>
    simp [detectCodex, h1] at h
    subst h
    simp
  | none =>
    cases h2 : env.lookup "CODEX_THREAD_ID" with
    | some v =>
      simp [detectCodex, h1, h2] at h
      subst h
      simp
    | none => simp [detectCodex, h1, h2] at h

/-- Inversion for `detectCline`. -/
theorem detectCline_some_inv (env : Env) (r : DetectionResult)
    (h : detectCline env = some r) :
    r.tool = some .cline ∧ r.signals ≠ [] := by
  by_cases h1 : env.lookup "CLINE_ACTIVE" = some "true"
  · simp [detectCline, h1] at h
    subst h
    simp
  · simp [detectCline, h1] at h

/-- Inversion for `detectKiroCli`. -/
theorem detectKiroCli_some_inv (env : Env) (anc : List String)
    (r : DetectionResult) (h : detectKiroCli env anc = some r) :
    r.tool = some .kiroCli ∧ r.signals ≠ [] := by
  cases h1 : env.lookup "Q_TERM" with
  | some v =>
    cases h2 : anc.find? kiroAncestorMatch with
    | some k =>
      simp [detectKiroCli, h1, h2] at h
      subst h
      simp
    | none =>
      simp [detectKiroCli, h1, h2] at h
      subst h
      simp
  | none =>
    cases h2 : env.lookup "QTERM_SESSION_ID" with
    | some v =>
      simp [detectKiroCli, h1, h2] at h
      subst h
      simp
    | none => simp [detectKiroCli, h1, h2] at h

/-- Inversion for `detectOpencode`. -/
theorem detectOpencode_some_inv (env : Env) (r : DetectionResult)
    (h : detectOpencode env = some r) :
    r.tool = some .opencode ∧ r.signals ≠ [] := by
  by_cases h1 : env.lookup "OPENCODE" = some "1"
  · simp [detectOpencode, h1] at h
    subst h
    simp
  · simp [detectOpencode, h1] at h

/-- Inversion for `detectGitHubCopilotCli` (current, gated version). -/
theorem detectGitHubCopilotCli_some_inv (env : Env) (anc : List String)
    (r : DetectionResult) (h : detectGitHubCopilotCli env anc = some r) :
    r.tool = some .githubCopilotCli ∧ r.signals ≠ [] := by
  cases h1 : env.lookup "Q_TERM" with
  | some v =>
    cases h2 : anc.find? copilotAncestorMatch with
    | some c =>
      simp [detectGitHubCopilotCli, h1, h2] at h
      subst h
      simp
    | none => simp [detectGitHubCopilotCli, h1, h2] at h
  | none => simp [detectGitHubCopilotCli, h1] at h

/-- Any matching detector reports its own tool identifier together
with at least one signal. -/
theorem runDetector_some_inv (d : DetectorId) (env : Env)
    (anc : List String) (r : DetectionResult)
    (h : runDetector d env anc = some r) :
    r.tool = some (toolOfDetector d) ∧ r.signals ≠ [] := by
  cases d with
  | claudeCode => exact detectClaudeCode_some_inv env r h
  | cursorAgent => exact detectCursorAgent_some_inv env r h
  | geminiCli => exact detectGeminiCli_some_inv env r h
  | aider => exact detectAider_some_inv env r h
  | codex => exact detectCodex_some_inv env r h
  | cline => exact detectCline_some_inv env r h
  | githubCopilotCli => exact detectGitHubCopilotCli_some_inv env anc r h
  | kiroCli => exact detectKiroCli_some_inv env anc r h
  | opencode => exact detectOpencode_some_inv env r h

/-- Any non-null fresh resolution result is a result of one of the
registered detectors. -/
theorem whichFresh_some_inv (env : Env) (anc : List String)
    (r : DetectionResult) (h : whichAgenticTuiFresh env anc = some r) :
    ∃ d ∈ registry, runDetector d env anc = some r := by
  unfold whichAgenticTuiFresh at h
  cases hf : (detectorResults env anc).findSome? highOf with
  | some x =>
    rw [hf] at h
    obtain ⟨a, ha, hha⟩ := List.exists_of_findSome?_eq_some hf
    have hax : a = some x := by
      cases a with
      | none => simp [highOf] at hha
      | some y =>
        simp only [highOf] at hha
        split at hha
        · cases hha; rfl
        · cases hha
    rw [hax] at ha
    obtain ⟨d, hd, hda⟩ := List.mem_map.mp ha
    have hxr : x = r := Option.some.inj h
    exact ⟨d, hd, by rw [hda, hxr]⟩
  | none =>
    rw [hf] at h
    obtain ⟨a, ha, hha⟩ := List.exists_of_findSome?_eq_some h
    have hax : a = some r := hha
    rw [hax] at ha
    obtain ⟨d, hd, hda⟩ := List.mem_map.mp ha
    exact ⟨d, hd, hda⟩

/-- A high-confidence output is returned by the first-pass scan ahead
of everything registered after it, when nothing before it is
high-confidence. -/
theorem specFirstHigh_append (rs1 rs2 : List (Option DetectionResult))
    (x : DetectionResult) (hx : x.confidence = .high)
    (h1 : ∀ y : DetectionResult, some y ∈ rs1 → y.confidence ≠ .high) :
    specFirstHigh (rs1 ++ some x :: rs2) = some x := by
  induction rs1 with
  | nil => simp [specFirstHigh, hx]
  | cons a t ih =>
    have ht : ∀ y : DetectionResult, some y ∈ t → y.confidence ≠ .high :=
      fun y hy => h1 y (by simp [hy])
    cases a with
    | none => simpa [specFirstHigh] using ih ht
    | some y =>
      have hy := h1 y (by simp)
      simpa [specFirstHigh, hy] using ih ht

/-- With a high-confidence output somewhere in the scan, the first
pass returns either it or something registered before it. -/
theorem specFirstHigh_append_cases (rs1 rs2 : List (Option DetectionResult))
    (x : DetectionResult) (hx : x.confidence = .high) :
    ∃ r', specFirstHigh (rs1 ++ some x :: rs2) = some r' ∧
      (r' = x ∨ some r' ∈ rs1) := by
  induction rs1 with
  | nil => exact ⟨x, by simp [specFirstHigh, hx], Or.inl rfl⟩
  | cons a t ih =>
    obtain ⟨r', hr', hor⟩ := ih
    cases a with
    | none =>
      exact ⟨r', by simpa [specFirstHigh] using hr',
             hor.imp id (fun hm => by simp [hm])⟩
    | some y =>
      by_cases hy : y.confidence = .high
      · exact ⟨y, by simp [specFirstHigh, hy], Or.inr (by simp)⟩
      · exact ⟨r', by simpa [specFirstHigh, hy] using hr',
               hor.imp id (fun hm => by simp [hm])⟩

end IsAgenticTui

namespace IsAgenticTui

/-- Claim C1: for every environment and ancestor-process state, a fresh
evaluation of `whichAgenticTui` (forced, or with an empty cache) returns
the first detector result in registry order with high confidence, else
the first detector result of any confidence (necessarily medium), else
null; ties at the same confidence tier go to the earlier-registered
detector (the first-match scans `specFirstHigh` / `specFirstAny`). -/
theorem claim_C1_two_pass_resolution (env : Env) (anc : List String)
    (cache : CacheState) (o : DetectionOptions) :
    (whichAgenticTui ⟨true⟩ cache env anc).1
        = specResolve (detectorResults env anc)
      ∧ (whichAgenticTui o none env anc).1
        = specResolve (detectorResults env anc)
      ∧ (∀ r, specFirstHigh (detectorResults env anc) = none →
          specFirstAny (detectorResults env anc) = some r →
          r.confidence = .medium)
      ∧ ((∀ a ∈ detectorResults env anc, a = none) →
          (whichAgenticTui ⟨true⟩ cache env anc).1 = none) := by
  have h1 : (whichAgenticTui ⟨true⟩ cache env anc).1
      = specResolve (detectorResults env anc) := by
    cases cache with
    | none => exact whichFresh_eq_specResolve env anc
    | some c => exact whichFresh_eq_specResolve env anc
  refine ⟨h1, ?_, ?_, ?_⟩
  · obtain ⟨f⟩ := o
    cases f with
    | false => exact whichFresh_eq_specResolve env anc
    | true => exact whichFresh_eq_specResolve env anc
  · exact fun r hh ha => specFirstAny_confidence _ r hh ha
  · intro hall
    rw [h1]
    exact specResolve_of_all_none _ hall

/-- Witness for C1 at a concrete input: with only `CODEX_THREAD_ID`
set, the fresh resolution equals the spec-side policy, and the first
any-confidence result is medium. -/
theorem claim_C1_witness :
    (whichAgenticTui ⟨true⟩ none [("CODEX_THREAD_ID", "t")] []).1
        = specResolve (detectorResults [("CODEX_THREAD_ID", "t")] [])
      ∧ (⟨some .codex, .medium, ["CODEX_THREAD_ID=t"]⟩
          : DetectionResult).confidence = .medium :=
  ⟨(claim_C1_two_pass_resolution [("CODEX_THREAD_ID", "t")] [] none
      ⟨true⟩).1,
   (claim_C1_two_pass_resolution [("CODEX_THREAD_ID", "t")] [] none
      ⟨true⟩).2.2.1 _ (by decide) (by decide)⟩

/-- Claim C6: exact-value primary signals use strict string equality.
`CLAUDECODE` must equal the literal `"1"` for the high-confidence
primary path (yielding exactly the `KEY=value` signal), any other value
yields at most a medium-confidence secondary result; `CLINE_ACTIVE`
must equal the literal `"true"`, any other value yields nothing. -/
theorem claim_C6_exact_value_primary (env : Env) :
    (env.lookup "CLAUDECODE" = some "1" →
      detectClaudeCode env
        = some ⟨some .claudeCode, .high, ["CLAUDECODE=1"]⟩)
    ∧ (env.lookup "CLAUDECODE" ≠ some "1" →
      ∀ r, detectClaudeCode env = some r → r.confidence = .medium)
    ∧ (env.lookup "CLINE_ACTIVE" = some "true" →
      detectCline env = some ⟨some .cline, .high, ["CLINE_ACTIVE=true"]⟩)
    ∧ (env.lookup "CLINE_ACTIVE" ≠ some "true" →
      detectCline env = none) := by
  refine ⟨?_, ?_, ?_, ?_⟩
  · intro h
    simp [detectClaudeCode, h]
  · intro h r hr
    rw [detectClaudeCode, if_neg h] at hr
    split at hr
    · cases hr
      rfl
    · cases hr
  · intro h
    simp [detectCline, h]
  · intro h
    simp [detectCline, h]

/-- Witness for C6 at concrete inputs: `CLAUDECODE=1` matches high with
the exact signal; `CLAUDECODE=TRUE` yields only medium confidence;
`CLINE_ACTIVE=TRUE` does not match. -/
theorem claim_C6_witness :
    detectClaudeCode [("CLAUDECODE", "1")]
        = some ⟨some .claudeCode, .high, ["CLAUDECODE=1"]⟩
      ∧ (⟨some .claudeCode, .medium, ["CLAUDE_CODE_ENTRYPOINT=cli"]⟩
          : DetectionResult).confidence = .medium
      ∧ detectCline [("CLINE_ACTIVE", "TRUE")] = none :=
  ⟨(claim_C6_exact_value_primary [("CLAUDECODE", "1")]).1 (by decide),
   (claim_C6_exact_value_primary
      [("CLAUDECODE", "TRUE"), ("CLAUDE_CODE_ENTRYPOINT", "cli")]).2.1
      (by decide) _ (by decide),
   (claim_C6_exact_value_primary [("CLINE_ACTIVE", "TRUE")]).2.2.2
      (by decide)⟩

/-- `indexOfId` misses exactly the identifiers not in the list. -/
theorem indexOfId_eq_none_iff (d : DetectorId) (ds : List DetectorId) :
    indexOfId d ds = none ↔ d ∉ ds := by
  induction ds with
  | nil => simp [indexOfId]
  | cons a t ih =>
    by_cases ha : a = d
    · subst ha
      simp [indexOfId]
    · simp [indexOfId, ha, ih, Ne.symm ha]

/-- Claim C7: the module-initialization guard throws exactly when both
the Copilot and the Kiro detector are present in the detectors array
with the Copilot index not strictly before the Kiro index; removing
either detector satisfies it vacuously, and the shipped registry
passes. -/
theorem claim_C7_registry_guard :
    (∀ ds : List DetectorId,
      registryGuardError ds = true ↔
        ∃ ci ki, indexOfId .githubCopilotCli ds = some ci ∧
          indexOfId .kiroCli ds = some ki ∧ ¬ ci < ki)
    ∧ (∀ ds : List DetectorId,
        DetectorId.githubCopilotCli ∉ ds ∨ DetectorId.kiroCli ∉ ds →
        registryGuardError ds = false)
    ∧ registryGuardError registry = false := by
  refine ⟨?_, ?_, by decide⟩
  · intro ds
    cases h1 : indexOfId .githubCopilotCli ds <;>
      cases h2 : indexOfId .kiroCli ds <;>
        simp [registryGuardError, h1, h2, Nat.not_lt]
  · intro ds h
    cases h with
    | inl h =>
      have hn : indexOfId .githubCopilotCli ds = none :=
        (indexOfId_eq_none_iff _ _).mpr h
      simp [registryGuardError, hn]
    | inr h =>
      have hn : indexOfId .kiroCli ds = none :=
        (indexOfId_eq_none_iff _ _).mpr h
      cases h1 : indexOfId .githubCopilotCli ds <;>
        simp [registryGuardError, h1, hn]

/-- Witness for C7 at a concrete registry: with the Copilot detector
removed, the guard is vacuously satisfied. -/
theorem claim_C7_witness :
    registryGuardError [DetectorId.kiroCli] = false :=
  claim_C7_registry_guard.2.1 [DetectorId.kiroCli]
    (Or.inl (by decide))

/-- The ancestor loop collects at most `fuel` names. -/
theorem ancestorWalk_length_le (lookup : Nat → Option (Nat × String)) :
    ∀ fuel pid : Nat, (ancestorWalk lookup fuel pid).1.length ≤ fuel := by
  intro fuel
  induction fuel with
  | zero =>
    intro pid
    simp [ancestorWalk]
  | succ n ih =>
    intro pid
    simp only [ancestorWalk]
    split
    · simp
    · cases hl : lookup pid with
      | none => simp
      | some pr =>
        obtain ⟨pp, comm⟩ := pr
        simp only [List.length_cons]
        exact Nat.succ_le_succ (ih pp)

/-- A totally failing oracle yields an empty walk. -/
theorem ancestorWalk_all_none (lookup : Nat → Option (Nat × String))
    (h : ∀ p, lookup p = none) :
    ∀ fuel pid : Nat, (ancestorWalk lookup fuel pid).1 = [] := by
  intro fuel pid
  cases fuel with
  | zero => rfl
  | succ n =>
    simp only [ancestorWalk]
    split
    · rfl
    · simp [h pid]

/-- Claim C9: for every `maxDepth` and every oracle behaviour the walk
terminates with at most `maxDepth` ancestor names; on win32 or with
depth 0 it returns the empty list without invoking the OS lookup; a
failing lookup truncates the list instead of raising. -/
theorem claim_C9_ancestor_walk_bounded (platform : String) (ppid : Nat)
    (lookup : Nat → Option (Nat × String)) (maxDepth : Nat) :
    (getAncestorProcessNames platform ppid lookup maxDepth).length
        ≤ maxDepth
      ∧ (platform = "win32" →
          getAncestorProcessNames platform ppid lookup maxDepth = []
          ∧ getAncestorLookupCalls platform ppid lookup maxDepth = 0)
      ∧ (maxDepth = 0 →
          getAncestorProcessNames platform ppid lookup maxDepth = []
          ∧ getAncestorLookupCalls platform ppid lookup maxDepth = 0)
      ∧ ((∀ p, lookup p = none) →
          getAncestorProcessNames platform ppid lookup maxDepth = []) := by
  refine ⟨?_, ?_, ?_, ?_⟩
  · unfold getAncestorProcessNames
    split
    · simp
    · exact ancestorWalk_length_le lookup maxDepth ppid
  · intro h
    simp [getAncestorProcessNames, getAncestorLookupCalls, h]
  · intro h
    subst h
    refine ⟨?_, ?_⟩
    · unfold getAncestorProcessNames
      split
      · rfl
      · rfl
    · unfold getAncestorLookupCalls
      split
      · rfl
      · rfl
  · intro h
    unfold getAncestorProcessNames
    split
    · rfl
    · exact ancestorWalk_all_none lookup h maxDepth ppid

/-- Witness for C9 at a concrete input: on win32 the walk is empty and
performs no lookup. -/
theorem claim_C9_witness :
    getAncestorProcessNames "win32" 42 noLookup 10 = []
      ∧ getAncestorLookupCalls "win32" 42 noLookup 10 = 0 :=
  (claim_C9_ancestor_walk_bounded "win32" 42 noLookup 10).2.1 rfl

/-- Claim C10: once a result (a null included) is cached, every
unforced call of any of the three query operations returns exactly the
cached value regardless of the current environment or ancestor state;
the first call from an empty cache, a forced call, and a call after
`clearCache` evaluate the detectors freshly, and the fresh result
replaces the cached value. -/
theorem claim_C10_cache_semantics (env env2 : Env)
    (anc anc2 : List String) (c : Option DetectionResult)
    (o : DetectionOptions) (t : AgenticTui) :
    whichAgenticTui o none env anc
        = (whichAgenticTuiFresh env anc,
           some (whichAgenticTuiFresh env anc))
      ∧ whichAgenticTui ⟨false⟩ (some c) env2 anc2 = (c, some c)
      ∧ isAgenticTui ⟨false⟩ (some c) env2 anc2 = (c.isSome, some c)
      ∧ isSpecificAgenticTui t ⟨false⟩ (some c) env2 anc2
          = ((match c with
              | some x => x.tool == some t
              | none => false), some c)
      ∧ whichAgenticTui ⟨true⟩ (some c) env anc
          = (whichAgenticTuiFresh env anc,
             some (whichAgenticTuiFresh env anc))
      ∧ whichAgenticTui o clearCache env anc
          = (whichAgenticTuiFresh env anc,
             some (whichAgenticTuiFresh env anc)) := by
  obtain ⟨f⟩ := o
  cases f <;> exact ⟨rfl, rfl, rfl, rfl, rfl, rfl⟩

end IsAgenticTui

namespace IsAgenticTui

/-- Counterexample to C2 as stated: with an ancestor list containing
`copilot` but `Q_TERM` unset, the GitHub Copilot CLI detector returns
null, not a high-confidence result — the `Q_TERM` gate makes the
shared marker required, contradicting "never required". -/
theorem claim_C2_counterexample :
    detectGitHubCopilotCli [] ["copilot"] = none := by decide

/-- Claim C2 (amended): when `Q_TERM` is set and the ancestor list
contains an entry equal to `copilot` or ending in `/copilot`, the
detector returns high confidence for github-copilot-cli with the
ancestor signal and the shared marker's value; when `Q_TERM` is unset
the detector returns null regardless of ancestors (the gate makes the
shared marker required). -/
theorem claim_C2_copilot_detector (env : Env) (anc : List String) :
    (∀ v, env.lookup "Q_TERM" = some v →
      (∃ a ∈ anc, copilotAncestorMatch a = true) →
      ∃ c, anc.find? copilotAncestorMatch = some c ∧
        detectGitHubCopilotCli env anc
          = some ⟨some .githubCopilotCli, .high,
                  ["ancestor process: " ++ c, "Q_TERM=" ++ v]⟩)
    ∧ (env.lookup "Q_TERM" = none →
        detectGitHubCopilotCli env anc = none) := by
  constructor
  · intro v hv hex
    obtain ⟨c, hc, _hp, _hm⟩ := exists_find?_of_mem hex
    refine ⟨c, hc, ?_⟩
    simp [detectGitHubCopilotCli, hv, hc]
  · intro hv
    simp [detectGitHubCopilotCli, hv]

/-- Witness for C2 at a concrete input: `Q_TERM` set plus a `copilot`
ancestor yields the high-confidence Copilot result. -/
theorem claim_C2_witness :
    detectGitHubCopilotCli [("Q_TERM", "1.24.1")] ["copilot"]
      = some ⟨some .githubCopilotCli, .high,
              ["ancestor process: copilot", "Q_TERM=1.24.1"]⟩ := by
  obtain ⟨c, hc, hd⟩ :=
    (claim_C2_copilot_detector [("Q_TERM", "1.24.1")] ["copilot"]).1
      "1.24.1" (by decide) ⟨"copilot", by decide⟩
  have hcc : c = "copilot" := by
    have : (["copilot"].find? copilotAncestorMatch) = some "copilot" := by
      decide
    rw [this] at hc
    exact (Option.some.inj hc).symm
  rw [hcc] at hd
  exact hd

/-- Counterexample to C3 as stated: with `Q_TERM` unset and a `copilot`
ancestor, the always-walk version resolves to a medium-confidence
Copilot result while the gated version resolves to null — the gating
optimization does change the overall resolution outcome. -/
theorem claim_C3_counterexample :
    whichAgenticTuiFreshAlways [] ["copilot"]
      ≠ whichAgenticTuiFresh [] ["copilot"] := by decide

/-- The gated and always-walk Copilot detectors agree whenever the
shared marker is set. -/
theorem copilot_gating_agrees (env : Env) (anc : List String)
    (v : String) (hv : env.lookup "Q_TERM" = some v) :
    detectGitHubCopilotCliAlways env anc
      = detectGitHubCopilotCli env anc := by
  cases hc : anc.find? copilotAncestorMatch with
  | some c =>
    simp [detectGitHubCopilotCliAlways, detectGitHubCopilotCli, hv, hc]
  | none =>
    simp [detectGitHubCopilotCliAlways, detectGitHubCopilotCli, hv, hc]

/-- Claim C3 (amended): whenever the shared marker `Q_TERM` is set in
the environment, the gated version of the GitHub Copilot CLI detector
produces the same overall resolution outcome as the version that
always walks the ancestor chain; the outcomes can differ only in
environments with `Q_TERM` unset (see the counterexample). -/
theorem claim_C3_gating_equivalence (env : Env) (anc : List String)
    (v : String) (hv : env.lookup "Q_TERM" = some v) :
    whichAgenticTuiFreshAlways env anc = whichAgenticTuiFresh env anc := by
  have hd : detectGitHubCopilotCliAlways env anc
      = detectGitHubCopilotCli env anc :=
    copilot_gating_agrees env anc v hv
  unfold whichAgenticTuiFreshAlways whichAgenticTuiFresh
    detectorResultsAlways detectorResults
  simp only [registry, List.map, runDetectorAlways, runDetector, hd]

/-- Witness for C3 at a concrete input: with `Q_TERM` set, both
versions resolve identically. -/
theorem claim_C3_witness :
    whichAgenticTuiFreshAlways [("Q_TERM", "1.0")] ["copilot"]
      = whichAgenticTuiFresh [("Q_TERM", "1.0")] ["copilot"] :=
  claim_C3_gating_equivalence [("Q_TERM", "1.0")] ["copilot"] "1.0"
    (by decide)

end IsAgenticTui

namespace IsAgenticTui

/-- Counterexample to C4 as stated: quantified over *every* environment
with `Q_TERM` set and a `copilot` ancestor, the claim fails — with
`CLAUDECODE=1` also set, resolution returns claude-code, not
github-copilot-cli. -/
theorem claim_C4_counterexample :
    whichAgenticTuiFresh [("CLAUDECODE", "1"), ("Q_TERM", "1.0")]
        ["copilot"]
      = some ⟨some .claudeCode, .high, ["CLAUDECODE=1"]⟩ := by decide

/-- Claim C4 (amended): with `Q_TERM` set and an ancestor entry equal
to `copilot` or ending in `/copilot`, resolution returns
github-copilot-cli at high confidence provided no earlier-registered
detector yields a high-confidence result; and in all such environments
resolution never returns kiro-cli. -/
theorem claim_C4_disambiguation (env : Env) (anc : List String)
    (v : String) (hv : env.lookup "Q_TERM" = some v)
    (hex : ∃ a ∈ anc, copilotAncestorMatch a = true) :
    ((∀ r, detectClaudeCode env = some r → r.confidence ≠ .high) →
     (∀ r, detectCursorAgent env = some r → r.confidence ≠ .high) →
     (∀ r, detectGeminiCli env = some r → r.confidence ≠ .high) →
     (∀ r, detectAider env = some r → r.confidence ≠ .high) →
     (∀ r, detectCodex env = some r → r.confidence ≠ .high) →
     (∀ r, detectCline env = some r → r.confidence ≠ .high) →
     ∃ c, whichAgenticTuiFresh env anc
        = some ⟨some .githubCopilotCli, .high,
                ["ancestor process: " ++ c, "Q_TERM=" ++ v]⟩)
    ∧ (∀ r, whichAgenticTuiFresh env anc = some r →
        r.tool ≠ some .kiroCli) := by
  obtain ⟨c, hc, _hp, _hm⟩ := exists_find?_of_mem hex
  have hcop : detectGitHubCopilotCli env anc
      = some ⟨some .githubCopilotCli, .high,
              ["ancestor process: " ++ c, "Q_TERM=" ++ v]⟩ := by
    simp [detectGitHubCopilotCli, hv, hc]
  have hresults : detectorResults env anc
      = [detectClaudeCode env, detectCursorAgent env, detectGeminiCli env,
         detectAider env, detectCodex env, detectCline env] ++
        some ⟨some .githubCopilotCli, .high,
              ["ancestor process: " ++ c, "Q_TERM=" ++ v]⟩ ::
        [detectKiroCli env anc, detectOpencode env] := by
    simp [detectorResults, registry, runDetector, hcop]
  constructor
  · intro h1 h2 h3 h4 h5 h6
    have hnh : ∀ y : DetectionResult,
        some y ∈ [detectClaudeCode env, detectCursorAgent env,
                  detectGeminiCli env, detectAider env, detectCodex env,
                  detectCline env] → y.confidence ≠ .high := by
      intro y hy
      simp only [List.mem_cons, List.not_mem_nil, or_false] at hy
      rcases hy with h | h | h | h | h | h
      · exact h1 y h.symm
      · exact h2 y h.symm
      · exact h3 y h.symm
      · exact h4 y h.symm
      · exact h5 y h.symm
      · exact h6 y h.symm
    have hfh : specFirstHigh (detectorResults env anc)
        = some ⟨some .githubCopilotCli, .high,
                ["ancestor process: " ++ c, "Q_TERM=" ++ v]⟩ := by
      rw [hresults]
      exact specFirstHigh_append _ _ _ rfl hnh
    refine ⟨c, ?_⟩
    rw [whichFresh_eq_specResolve]
    simp [specResolve, hfh]
  · intro r hr
    obtain ⟨r', hr', hor⟩ :=
      specFirstHigh_append_cases
        [detectClaudeCode env, detectCursorAgent env, detectGeminiCli env,
         detectAider env, detectCodex env, detectCline env]
        [detectKiroCli env anc, detectOpencode env]
        ⟨some .githubCopilotCli, .high,
         ["ancestor process: " ++ c, "Q_TERM=" ++ v]⟩ rfl
    rw [← hresults] at hr'
    rw [whichFresh_eq_specResolve] at hr
    rw [show specResolve (detectorResults env anc) = some r' from by
      simp [specResolve, hr']] at hr
    have hrr : r' = r := Option.some.inj hr
    rw [← hrr]
    rcases hor with hx | hmem
    · rw [hx]
      simp
    · simp only [List.mem_cons, List.not_mem_nil, or_false] at hmem
      rcases hmem with h | h | h | h | h | h
      · rw [(detectClaudeCode_some_inv env r' h.symm).1]
        simp
      · rw [(detectCursorAgent_some_inv env r' h.symm).1]
        simp
      · rw [(detectGeminiCli_some_inv env r' h.symm).1]
        simp
      · rw [(detectAider_some_inv env r' h.symm).1]
        simp
      · rw [(detectCodex_some_inv env r' h.symm).1]
        simp
      · rw [(detectCline_some_inv env r' h.symm).1]
        simp

/-- Witness for C4 at a concrete input: with only `Q_TERM` set and a
`copilot` ancestor, the resolved result is not kiro-cli. -/
theorem claim_C4_witness :
    (⟨some .githubCopilotCli, .high,
      ["ancestor process: copilot", "Q_TERM=1.0"]⟩
      : DetectionResult).tool ≠ some AgenticTui.kiroCli :=
  (claim_C4_disambiguation [("Q_TERM", "1.0")] ["copilot"] "1.0"
    (by decide) ⟨"copilot", by decide⟩).2 _ (by decide)

/-- Counterexample to C5's resolution clause as stated: quantified
over *every* environment with `Q_TERM` set, it fails — with
`GEMINI_CLI=1` also set and an empty ancestor list, resolution returns
gemini-cli at high confidence, not kiro-cli at medium. -/
theorem claim_C5_counterexample :
    whichAgenticTuiFresh [("GEMINI_CLI", "1"), ("Q_TERM", "1.0")] []
      = some ⟨some .geminiCli, .high, ["GEMINI_CLI=1"]⟩ := by decide

/-- Claim C5 (amended): with `Q_TERM` set, the Kiro CLI detector
returns medium confidence on the marker alone and escalates to high
exactly when the ancestor list contains an entry matching `kiro-cli`
or `q` (exactly or as a `/`-delimited suffix); and with neither tool's
distinctive ancestor name present, resolution returns kiro-cli at
medium confidence provided no other detector produces any result. -/
theorem claim_C5_shared_marker (env : Env) (anc : List String)
    (v : String) (hv : env.lookup "Q_TERM" = some v) :
    ((∀ a ∈ anc, kiroAncestorMatch a = false) →
      detectKiroCli env anc
        = some ⟨some .kiroCli, .medium, ["Q_TERM=" ++ v]⟩)
    ∧ ((∃ a ∈ anc, kiroAncestorMatch a = true) →
      ∃ k, anc.find? kiroAncestorMatch = some k ∧
        detectKiroCli env anc
          = some ⟨some .kiroCli, .high,
                  ["Q_TERM=" ++ v, "ancestor process: " ++ k]⟩)
    ∧ ((∀ a ∈ anc, kiroAncestorMatch a = false) →
       (∀ a ∈ anc, copilotAncestorMatch a = false) →
       detectClaudeCode env = none → detectCursorAgent env = none →
       detectGeminiCli env = none → detectAider env = none →
       detectCodex env = none → detectCline env = none →
       detectOpencode env = none →
       whichAgenticTuiFresh env anc
         = some ⟨some .kiroCli, .medium, ["Q_TERM=" ++ v]⟩) := by
  refine ⟨?_, ?_, ?_⟩
  · intro hall
    have hn := find?_eq_none_of_all hall
    simp [detectKiroCli, hv, hn]
  · intro hex
    obtain ⟨k, hk, _hp, _hm⟩ := exists_find?_of_mem hex
    exact ⟨k, hk, by simp [detectKiroCli, hv, hk]⟩
  · intro hkiro hcop h1 h2 h3 h4 h5 h6 h7
    have hnk := find?_eq_none_of_all hkiro
    have hnc := find?_eq_none_of_all hcop
    have hkiroD : detectKiroCli env anc
        = some ⟨some .kiroCli, .medium, ["Q_TERM=" ++ v]⟩ := by
      simp [detectKiroCli, hv, hnk]
    have hcopD : detectGitHubCopilotCli env anc = none := by
      simp [detectGitHubCopilotCli, hv, hnc]
    rw [whichFresh_eq_specResolve]
    simp [detectorResults, registry, runDetector, h1, h2, h3, h4, h5,
          h6, h7, hkiroD, hcopD, specResolve, specFirstHigh,
          specFirstAny]

/-- Witness for C5 at a concrete input: `Q_TERM` set, empty ancestor
list, no other variables — resolution is kiro-cli at medium. -/
theorem claim_C5_witness :
    whichAgenticTuiFresh [("Q_TERM", "1.0")] []
      = some ⟨some .kiroCli, .medium, ["Q_TERM=1.0"]⟩ :=
  (claim_C5_shared_marker [("Q_TERM", "1.0")] [] "1.0" (by decide)).2.2
    (by simp) (by simp) (by decide) (by decide) (by decide) (by decide)
    (by decide) (by decide) (by decide)

/-- Claim C8: every detector result carries at least one signal when a
tool is reported, and so does every non-null result of
`whichAgenticTui` — on a fresh evaluation as well as through any
reachable cache state. -/
theorem claim_C8_signals_nonempty (env : Env) (anc : List String) :
    (∀ d ∈ registry, ∀ r, runDetector d env anc = some r →
      r.tool.isSome = true → r.signals ≠ [])
    ∧ (∀ (o : DetectionOptions) (cache : CacheState),
        (cache = none ∨ ∃ e a, cache = some (whichAgenticTuiFresh e a)) →
        ∀ r, (whichAgenticTui o cache env anc).1 = some r →
          r.tool.isSome = true → r.signals ≠ []) := by
  have hfresh : ∀ (e : Env) (a : List String) (r : DetectionResult),
      whichAgenticTuiFresh e a = some r → r.signals ≠ [] := by
    intro e a r h
    obtain ⟨d, _hd, hrun⟩ := whichFresh_some_inv e a r h
    exact (runDetector_some_inv d e a r hrun).2
  constructor
  · intro d _hd r hrun _ht
    exact (runDetector_some_inv d env anc r hrun).2
  · intro o cache hreach r hr _ht
    obtain ⟨f⟩ := o
    cases cache with
    | none =>
      cases f with
      | false => exact hfresh env anc r hr
      | true => exact hfresh env anc r hr
    | some cval =>
      cases f with
      | true => exact hfresh env anc r hr
      | false =>
        have hc : cval = some r := hr
        rcases hreach with hnone | ⟨e, a, hca⟩
        · exact Option.noConfusion hnone
        · have hcv : cval = whichAgenticTuiFresh e a :=
            Option.some.inj hca
          rw [hcv] at hc
          exact hfresh e a r hc

/-- Witness for C8 at a concrete input: the Codex detector's
high-confidence result has a non-empty signal list. -/
theorem claim_C8_witness :
    (⟨some .codex, .high, ["CODEX_SANDBOX=seatbelt"]⟩
      : DetectionResult).signals ≠ [] :=
  (claim_C8_signals_nonempty [("CODEX_SANDBOX", "seatbelt")] []).1
    .codex (by decide) _ (by decide) (by decide)

end IsAgenticTui
